import Mathlib

/-!
# Verification of `arcgis-next-interactive-map`

A shallow embedding, in Lean 4, of the logic of the interactive-map
repository: the bounding-box computation over the bundled point data
(`calculateBounds`, `addPointsToLayer`), the widget factory
(`MapWidgetsFactory`: `create*`, `createAllWidgets`, `destroyWidgets`,
`destroyView`), the component's initialization (`initializeMap`, the mount
effect) and its cleanup, and the two UI toggle effects.

Modelling conventions:
* JavaScript numbers are modelled as `ℚ` for finite values; the sentinel
  values `Infinity` / `-Infinity` that seed the bounds accumulators are
  modelled by the extended type `ENum`.  `NaN` can occur only inside a
  coordinate slot of a data record and is modelled there by `CoordVal.jnan`.
* A coordinate slot of a JSON record holds either a number (possibly `NaN`)
  or some non-number value (a string, etc.): type `CoordVal`.
* Exceptions are modelled with `Except String`; a thrown value is modelled
  by its display string, and JavaScript template interpolation
  `${error}` by string concatenation with that string.
* `console.warn` / `console.error` calls are modelled by returning, next to
  the ordinary result, the list of records (or messages) warned about.
* SDK objects (views, widgets) are modelled as opaque handles carrying a
  numeric identity plus the two observable features the cleanup code
  queries: whether `destroy` is a function, and whether calling it throws.
-/

namespace ArcgisMap

/-- A JavaScript number extended with the infinities, as needed by the
`Infinity` / `-Infinity` seeds of the bounds accumulators. -/
inductive ENum where
  | fin : ℚ → ENum
  | pinf : ENum
  | ninf : ENum
deriving DecidableEq, Repr

/-- `Math.min` on non-`NaN` JavaScript numbers. -/
def emin : ENum → ENum → ENum
  | ENum.ninf, _ => ENum.ninf
  | _, ENum.ninf => ENum.ninf
  | ENum.pinf, y => y
  | x, ENum.pinf => x
  | ENum.fin a, ENum.fin b => ENum.fin (min a b)

/-- `Math.max` on non-`NaN` JavaScript numbers. -/
def emax : ENum → ENum → ENum
  | ENum.pinf, _ => ENum.pinf
  | _, ENum.pinf => ENum.pinf
  | ENum.ninf, y => y
  | x, ENum.ninf => x
  | ENum.fin a, ENum.fin b => ENum.fin (max a b)

/-- JavaScript `isFinite` on an `ENum`. -/
def ENum.isFinite : ENum → Bool
  | ENum.fin _ => true
  | _ => false

/-- The order on extended numbers (`-Infinity` below all, `Infinity` above all). -/
def eleb : ENum → ENum → Bool
  | ENum.ninf, _ => true
  | _, ENum.pinf => true
  | ENum.fin a, ENum.fin b => decide (a ≤ b)
  | _, _ => false

/-- A value sitting in a coordinate slot of a data record: a finite number,
`NaN`, or a non-number JSON value such as a string. -/
inductive CoordVal where
  | jnum : ℚ → CoordVal
  | jnan : CoordVal
  | jother : CoordVal
deriving DecidableEq, Repr

/-- JavaScript `typeof v === "number"` (`NaN` is a number). -/
def isNumberVal : CoordVal → Bool
  | CoordVal.jnum _ => true
  | CoordVal.jnan => true
  | CoordVal.jother => false

/-- JavaScript `isNaN(v)` restricted to the values that pass the preceding
`typeof` check in the source (so no string coercion is involved). -/
def isNaNVal : CoordVal → Bool
  | CoordVal.jnan => true
  | _ => false

/-- The numeric value of a coordinate slot, when it holds a non-`NaN` number. -/
def numVal : CoordVal → Option ℚ
  | CoordVal.jnum q => some q
  | _ => none

/-- A record of the bundled points data file: `{ id, name, coordinates }`,
where the `coordinates` field may be absent (`none`) or hold any list of
JSON values. -/
structure Point where
  pid : Int
  name : String
  coordinates : Option (List CoordVal)
deriving DecidableEq, Repr

/-- The source's per-record validity test, as performed by `calculateBounds`
and `addPointsToLayer`: `coordinates` present with at least two entries, and
the first two entries both of type number and not `NaN`. -/
def validRecord (p : Point) : Bool :=
  match p.coordinates with
  | some (lon :: lat :: _) =>
      isNumberVal lon && isNumberVal lat && !(isNaNVal lon) && !(isNaNVal lat)
  | _ => false

/-- The longitude/latitude pair of a structurally valid record. -/
def pointLonLat (p : Point) : Option (ℚ × ℚ) :=
  match p.coordinates with
  | some (lon :: lat :: _) =>
      match numVal lon, numVal lat with
      | some lo, some la => some (lo, la)
      | _, _ => none
  | _ => none

/-- The running bounds accumulator of `calculateBounds`. -/
structure BoundsAcc where
  minLon : ENum
  minLat : ENum
  maxLon : ENum
  maxLat : ENum
deriving DecidableEq, Repr

/-- The accumulator's initial value: `Infinity` for the minima, `-Infinity`
for the maxima. -/
def initAcc : BoundsAcc :=
  { minLon := ENum.pinf, minLat := ENum.pinf
    maxLon := ENum.ninf, maxLat := ENum.ninf }

/-- The four `Math.min`/`Math.max` updates applied for a valid point. -/
def updateAcc (acc : BoundsAcc) (lo la : ℚ) : BoundsAcc :=
  { minLon := emin acc.minLon (ENum.fin lo)
    maxLon := emax acc.maxLon (ENum.fin lo)
    minLat := emin acc.minLat (ENum.fin la)
    maxLat := emax acc.maxLat (ENum.fin la) }

/-- The body of the `points.forEach` loop of `calculateBounds`
(`part_000`, lines 211–229), also tracking the records passed to
`console.warn` on the two skip paths. -/
def pointStepW (st : BoundsAcc × List Point) (p : Point) : BoundsAcc × List Point :=
  match p.coordinates with
  | some (lon :: lat :: _) =>
      if isNumberVal lon && isNumberVal lat && !(isNaNVal lon) && !(isNaNVal lat) then
        match numVal lon, numVal lat with
        | some lo, some la => (updateAcc st.1 lo la, st.2)
        | _, _ => st
      else
        (st.1, st.2 ++ [p])
  | _ =>
      (st.1, st.2 ++ [p])

/-- The `forEach` loop of `calculateBounds` over the whole list. -/
def boundsFold (points : List Point) : BoundsAcc × List Point :=
  points.foldl pointStepW (initAcc, [])

/-- `calculateBounds` (`part_000`, lines 201–237): throws on an empty input,
folds the min/max updates over the structurally valid records, throws when
any of the four accumulators is still infinite, and otherwise returns
`[[minLon, minLat], [maxLon, maxLat]]`.  The second component is the list of
records warned about. -/
def calculateBounds (points : List Point) :
    Except String (List (List ENum)) × List Point :=
  if points.length = 0 then
    (Except.error "No points data available", [])
  else
    if !(boundsFold points).1.minLon.isFinite || !(boundsFold points).1.maxLon.isFinite ||
       !(boundsFold points).1.minLat.isFinite || !(boundsFold points).1.maxLat.isFinite then
      (Except.error "Invalid bounds calculated from points", (boundsFold points).2)
    else
      (Except.ok [[(boundsFold points).1.minLon, (boundsFold points).1.minLat],
                  [(boundsFold points).1.maxLon, (boundsFold points).1.maxLat]],
       (boundsFold points).2)

/-- `addPointsToLayer` (`part_000`, lines 242–266): adds a graphic for every
structurally valid record (same guards as `calculateBounds`, skipping the
rest with a warning), then returns `calculateBounds` of the full list.
The result is the list of added graphics (as lon/lat pairs), the bounds
result, and the warned records from both passes. -/
def addPointsToLayer (points : List Point) :
    List (ℚ × ℚ) × (Except String (List (List ENum)) × List Point) :=
  (points.filterMap pointLonLat, calculateBounds points)

/-- The body of the `forEach` loop acting on the accumulator alone (the
warning log does not feed back into the arithmetic). -/
def pointStep (acc : BoundsAcc) (p : Point) : BoundsAcc :=
  match p.coordinates with
  | some (lon :: lat :: _) =>
      if isNumberVal lon && isNumberVal lat && !(isNaNVal lon) && !(isNaNVal lat) then
        match numVal lon, numVal lat with
        | some lo, some la => updateAcc acc lo la
        | _, _ => acc
      else acc
  | _ => acc

/-- The valid lon/lat pairs of a point list, in order. -/
def lonLats (l : List Point) : List (ℚ × ℚ) := l.filterMap pointLonLat

/-- The longitudes of the valid records. -/
def lonsOf (l : List Point) : List ℚ := (lonLats l).map Prod.fst

/-- The latitudes of the valid records. -/
def latsOf (l : List Point) : List ℚ := (lonLats l).map Prod.snd

/-- Folding `Math.min` of a list of finite numbers into an accumulator. -/
def eminFold (e : ENum) (qs : List ℚ) : ENum :=
  qs.foldl (fun a q => emin a (ENum.fin q)) e

/-- Folding `Math.max` of a list of finite numbers into an accumulator. -/
def emaxFold (e : ENum) (qs : List ℚ) : ENum :=
  qs.foldl (fun a q => emax a (ENum.fin q)) e

/-! ## SDK handles, the widget set, and teardown -/

/-- An SDK widget handle: a numeric identity plus the two features the
cleanup code observes (`typeof w.destroy === "function"`, and whether the
`destroy()` call throws). -/
structure Widget where
  wid : Nat
  hasDestroy : Bool
  destroyFails : Bool
deriving DecidableEq, Repr

/-- The SDK view handle, with the same observable features. -/
structure ViewHandle where
  vid : Nat
  hasDestroy : Bool
  destroyFails : Bool
deriving DecidableEq, Repr

/-- The `WidgetsState` record of `MapWidgetsFactory.ts`: one optional slot
per widget name. -/
structure WidgetsState where
  home : Option Widget := none
  compass : Option Widget := none
  locate : Option Widget := none
  search : Option Widget := none
  scaleBar : Option Widget := none
  fullscreen : Option Widget := none
  basemapGallery : Option Widget := none
  coordinateConversion : Option Widget := none
  measurement : Option Widget := none
  sketch : Option Widget := none
deriving DecidableEq, Repr

/-- `Object.values(widgets)` in the key-insertion order of
`createAllWidgets`. -/
def WidgetsState.values (ws : WidgetsState) : List (Option Widget) :=
  [ws.home, ws.compass, ws.locate, ws.search, ws.scaleBar, ws.fullscreen,
   ws.basemapGallery, ws.coordinateConversion, ws.measurement, ws.sketch]

/-- The widget set with every slot absent (`{}`). -/
def emptyWidgets : WidgetsState := {}

/-- The present handles of a widget set, in iteration order. -/
def presentWidgets (ws : WidgetsState) : List Widget :=
  ws.values.filterMap id

/-- Calling `widget.destroy()`: throws exactly when the handle is marked as
failing. -/
def Widget.destroyCall (w : Widget) : Except String Unit :=
  if w.destroyFails then Except.error "widget destroy threw" else Except.ok ()

/-- Calling `view.destroy()`. -/
def ViewHandle.destroyCall (v : ViewHandle) : Except String Unit :=
  if v.destroyFails then Except.error "view destroy threw" else Except.ok ()

/-- One iteration of `destroyWidgets` (`MapWidgetsFactory.ts`, lines
218–226): `if (widget && typeof widget.destroy === "function")
widget.destroy()`, inside `try { … } catch { console.error(…) }`.  Returns
the ids whose teardown was invoked and the logged error messages. -/
def destroyOne (ow : Option Widget) : List Nat × List String :=
  match ow with
  | some w =>
      if w.hasDestroy then
        match w.destroyCall with
        | Except.ok _ => ([w.wid], [])
        | Except.error e => ([w.wid], ["Failed to destroy widget: " ++ e])
      else ([], [])
  | none => ([], [])

/-- The `forEach` of `destroyWidgets` over a list of slots, observed as the
invoked teardown ids and the logged messages, in order. -/
def destroyWidgetList : List (Option Widget) → List Nat × List String
  | [] => ([], [])
  | ow :: t =>
      let d := destroyOne ow
      let rest := destroyWidgetList t
      (d.1 ++ rest.1, d.2 ++ rest.2)

/-- `MapWidgetsFactory.destroyWidgets` (`MapWidgetsFactory.ts`, lines
217–227): iterate `Object.values(widgets)`, destroying each present handle
that has a `destroy` function, catching and logging (never rethrowing) each
individual failure. -/
def destroyWidgets (ws : WidgetsState) : List Nat × List String :=
  destroyWidgetList ws.values

/-- `MapWidgetsFactory.destroyView` (`MapWidgetsFactory.ts`, lines
229–237): `if (view && typeof view.destroy === "function")` then
`try { view.destroy() } catch { console.error(…) }`. -/
def destroyView (ov : Option ViewHandle) : List Nat × List String :=
  match ov with
  | some v =>
      if v.hasDestroy then
        match v.destroyCall with
        | Except.ok _ => ([v.vid], [])
        | Except.error e => ([v.vid], ["Failed to destroy view: " ++ e])
      else ([], [])
  | none => ([], [])

/-- The two refs the cleanup path owns: `widgetsRef.current` and
`viewRef.current`. -/
structure Refs where
  widgets : WidgetsState
  view : Option ViewHandle
deriving DecidableEq, Repr

/-- The mount-effect cleanup (`part_000`, lines 345–356): destroy the
widget set and reset it to `{}` (the `if (widgetsRef.current)` guard is
always satisfied, `{}` being truthy), then, if the view ref is set, destroy
the view and null the ref.  Returns the new refs plus the invoked teardown
ids and logged messages. -/
def cleanup (r : Refs) : Refs × (List Nat × List String) :=
  let dw := destroyWidgets r.widgets
  let r1 : Refs := { widgets := emptyWidgets, view := r.view }
  match r1.view with
  | some v =>
      let dv := destroyView (some v)
      ({ r1 with view := none }, (dw.1 ++ dv.1, dw.2 ++ dv.2))
  | none => (r1, dw)

/-- The teardown ids a cleanup run invokes. -/
def cleanupInvoked (r : Refs) : List Nat := (cleanup r).2.1

/-- The well-formedness of a reachable refs state: the present handles were
created by the SDK during this mount, so their ids are pairwise distinct,
every handle has a `destroy` function, and the view is distinct from the
widgets. -/
def Refs.wellFormed (r : Refs) : Prop :=
  ((presentWidgets r.widgets).map Widget.wid).Nodup ∧
  (∀ w ∈ presentWidgets r.widgets, w.hasDestroy = true) ∧
  (∀ v, r.view = some v →
    v.hasDestroy = true ∧ v.vid ∉ (presentWidgets r.widgets).map Widget.wid)

/-! ## The UI surface and the toggle effects -/

/-- The set of widget ids currently on the view's UI surface
(`view.ui`). -/
abbrev UISurface := Finset Nat

/-- `view.ui.add(widget, position)`, as membership of the surface (the
anchor position is not observed by any claim). -/
def uiAdd (u : UISurface) (w : Widget) : UISurface := insert w.wid u

/-- `view.ui.remove(widget)`. -/
def uiRemove (u : UISurface) (w : Widget) : UISurface := u.erase w.wid

/-- The tools-toggle effect (`part_000`, lines 380–396): a no-op unless the
view, the measurement widget and the sketch widget all exist; otherwise add
both (open) or remove both (closed), measurement first. -/
def toolsEffect (view : Option ViewHandle) (measurement sketch : Option Widget)
    (toolsOpen : Bool) (u : UISurface) : UISurface :=
  match view, measurement, sketch with
  | some _, some m, some s =>
      if toolsOpen then uiAdd (uiAdd u m) s
      else uiRemove (uiRemove u m) s
  | _, _, _ => u

/-- The basemap-toggle effect (`part_000`, lines 362–375): a no-op unless
the view and the basemap gallery exist; otherwise add (open) or remove
(closed) the gallery. -/
def basemapEffect (view : Option ViewHandle) (basemapGallery : Option Widget)
    (basemapOpen : Bool) (u : UISurface) : UISurface :=
  match view, basemapGallery with
  | some _, some g =>
      if basemapOpen then uiAdd u g else uiRemove u g
  | _, _ => u

/-! ## The factory with a fallible SDK -/

/-- The outcomes of the underlying SDK constructor calls during one
initialization: each field is what the corresponding `new …(…)` expression
does (returns a handle, or throws). -/
structure Sdk where
  newMap : Except String Nat
  newView : Except String ViewHandle
  newGraphicsLayer : Except String Nat
  newHome : Except String Widget
  newCompass : Except String Widget
  newLocate : Except String Widget
  newSearch : Except String Widget
  newScaleBar : Except String Widget
  newFullscreen : Except String Widget
  newBasemapGallery : Except String Widget
  newCoordinateConversion : Except String Widget
  newMeasurement : Except String Widget
  newSketch : Except String Widget

/-- `try { … } catch (error) { throw new Error(msg + error) }`. -/
def wrap (msg : String) (r : Except String α) : Except String α :=
  match r with
  | Except.ok a => Except.ok a
  | Except.error e => Except.error (msg ++ e)

/-- `MapWidgetsFactory.createMap` (`MapWidgetsFactory.ts`, lines 50–56). -/
def createMap (sdk : Sdk) (basemap : String := "streets-vector") :
    Except String Nat :=
  wrap "Failed to create map: " sdk.newMap

/-- `MapWidgetsFactory.createMapView` (lines 58–73). -/
def createMapView (sdk : Sdk) (container : Nat) (map : Nat) :
    Except String ViewHandle :=
  wrap "Failed to create map view: " sdk.newView

/-- `MapWidgetsFactory.createGraphicsLayer` (lines 75–81). -/
def createGraphicsLayer (sdk : Sdk) (id : String) : Except String Nat :=
  wrap "Failed to create graphics layer: " sdk.newGraphicsLayer

/-- `MapWidgetsFactory.createHomeWidget` (lines 86–92). -/
def createHomeWidget (sdk : Sdk) (view : ViewHandle) : Except String Widget :=
  wrap "Failed to create home widget: " sdk.newHome

/-- `MapWidgetsFactory.createCompassWidget` (lines 94–100). -/
def createCompassWidget (sdk : Sdk) (view : ViewHandle) : Except String Widget :=
  wrap "Failed to create compass widget: " sdk.newCompass

/-- `MapWidgetsFactory.createLocateWidget` (lines 102–114). -/
def createLocateWidget (sdk : Sdk) (view : ViewHandle) : Except String Widget :=
  wrap "Failed to create locate widget: " sdk.newLocate

/-- `MapWidgetsFactory.createSearchWidget` (lines 116–126). -/
def createSearchWidget (sdk : Sdk) (view : ViewHandle) : Except String Widget :=
  wrap "Failed to create search widget: " sdk.newSearch

/-- `MapWidgetsFactory.createScaleBarWidget` (lines 128–138). -/
def createScaleBarWidget (sdk : Sdk) (view : ViewHandle) : Except String Widget :=
  wrap "Failed to create scale bar widget: " sdk.newScaleBar

/-- `MapWidgetsFactory.createFullscreenWidget` (lines 140–146). -/
def createFullscreenWidget (sdk : Sdk) (view : ViewHandle) : Except String Widget :=
  wrap "Failed to create fullscreen widget: " sdk.newFullscreen

/-- `MapWidgetsFactory.createBasemapGallery` (lines 148–154). -/
def createBasemapGallery (sdk : Sdk) (view : ViewHandle) : Except String Widget :=
  wrap "Failed to create basemap gallery: " sdk.newBasemapGallery

/-- `MapWidgetsFactory.createCoordinateConversionWidget` (lines 156–162). -/
def createCoordinateConversionWidget (sdk : Sdk) (view : ViewHandle) :
    Except String Widget :=
  wrap "Failed to create coordinate conversion widget: " sdk.newCoordinateConversion

/-- `MapWidgetsFactory.createMeasurementWidget` (lines 164–170). -/
def createMeasurementWidget (sdk : Sdk) (view : ViewHandle) : Except String Widget :=
  wrap "Failed to create measurement widget: " sdk.newMeasurement

/-- `MapWidgetsFactory.createSketchWidget` (lines 172–182). -/
def createSketchWidget (sdk : Sdk) (view : ViewHandle) (layer : Nat) :
    Except String Widget :=
  wrap "Failed to create sketch widget: " sdk.newSketch

/-- `MapWidgetsFactory.createAllWidgets` (lines 187–212): build the record
with the nine view-only widgets, add the sketch slot only when a graphics
layer was supplied, and wrap any escaping construction failure. -/
def createAllWidgets (sdk : Sdk) (view : ViewHandle)
    (graphicsLayer : Option Nat) : Except String WidgetsState :=
  wrap "Failed to create widgets: " (do
    let home ← createHomeWidget sdk view
    let compass ← createCompassWidget sdk view
    let locate ← createLocateWidget sdk view
    let search ← createSearchWidget sdk view
    let scaleBar ← createScaleBarWidget sdk view
    let fullscreen ← createFullscreenWidget sdk view
    let basemapGallery ← createBasemapGallery sdk view
    let coordinateConversion ← createCoordinateConversionWidget sdk view
    let measurement ← createMeasurementWidget sdk view
    let base : WidgetsState :=
      { home := some home, compass := some compass, locate := some locate
        search := some search, scaleBar := some scaleBar
        fullscreen := some fullscreen, basemapGallery := some basemapGallery
        coordinateConversion := some coordinateConversion
        measurement := some measurement, sketch := none }
    match graphicsLayer with
    | some l => do
        let sk ← createSketchWidget sdk view l
        pure { base with sketch := some sk }
    | none => pure base)

/-- `MapWidgetsFactory.setupAllWidgets` of the earlier factory version
(`part_001`, lines 124–163): same construction without the try/catch
wrappers (the raw SDK exception propagates), sketch only when a layer was
supplied, and the seven default widgets placed on the UI; returns the
widget set and the ids placed by default. -/
def setupAllWidgets (sdk : Sdk) (view : ViewHandle)
    (graphicsLayer : Option Nat) : Except String (WidgetsState × List Nat) := do
  let home ← sdk.newHome
  let compass ← sdk.newCompass
  let locate ← sdk.newLocate
  let search ← sdk.newSearch
  let scaleBar ← sdk.newScaleBar
  let fullscreen ← sdk.newFullscreen
  let basemapGallery ← sdk.newBasemapGallery
  let coordinateConversion ← sdk.newCoordinateConversion
  let measurement ← sdk.newMeasurement
  match graphicsLayer with
  | some _ => do
      let sketch ← sdk.newSketch
      pure
        ({ home := some home, compass := some compass, locate := some locate
           search := some search, scaleBar := some scaleBar
           fullscreen := some fullscreen, basemapGallery := some basemapGallery
           coordinateConversion := some coordinateConversion
           measurement := some measurement, sketch := some sketch },
         [home.wid, compass.wid, locate.wid, search.wid, fullscreen.wid,
          scaleBar.wid, coordinateConversion.wid])
  | none =>
      pure
        ({ home := some home, compass := some compass, locate := some locate
           search := some search, scaleBar := some scaleBar
           fullscreen := some fullscreen, basemapGallery := some basemapGallery
           coordinateConversion := some coordinateConversion
           measurement := some measurement, sketch := none },
         [home.wid, compass.wid, locate.wid, search.wid, fullscreen.wid,
          scaleBar.wid, coordinateConversion.wid])

/-! ## Component initialization and lifecycle -/

/-- `initializeMap` (`part_000`, lines 271–301): fail on a missing
container (thrown before the try block, hence unwrapped), then create map,
layer, view and the full widget set, wrapping any failure as
`Map initialization failed: …`. -/
def initializeMap (sdk : Sdk) (container : Option Nat) :
    Except String (ViewHandle × WidgetsState × Nat) :=
  match container with
  | none => Except.error "Map container not found"
  | some c =>
      wrap "Map initialization failed: " (do
        let map ← createMap sdk "streets-vector"
        let graphicsLayer ← createGraphicsLayer sdk "draw-layer"
        let mapView ← createMapView sdk c map
        let createdWidgets ← createAllWidgets sdk mapView (some graphicsLayer)
        pure (mapView, createdWidgets, graphicsLayer))

/-- The lifecycle states the component surfaces: the loading overlay, the
ready map, or the error panel with its message. -/
inductive ComponentStatus where
  | loading : ComponentStatus
  | ready : ComponentStatus
  | failed : String → ComponentStatus
deriving DecidableEq, Repr

/-- The mount effect `setup` (`part_000`, lines 306–357), with the SDK
readiness and animation promises assumed to resolve: run `initializeMap`,
then `addPointsToLayer` (whose bounds come from `calculateBounds`); any
thrown message lands in the error state, success ends in `ready`. -/
def setupRun (sdk : Sdk) (container : Option Nat) (points : List Point) :
    ComponentStatus :=
  match initializeMap sdk container with
  | Except.error e => ComponentStatus.failed e
  | Except.ok _ =>
      match (calculateBounds points).1 with
      | Except.error e => ComponentStatus.failed e
      | Except.ok _ => ComponentStatus.ready

/-- The example point list of the spec: two valid records. -/
def examplePointsAB : List Point :=
  [⟨1, "A", some [CoordVal.jnum 30, CoordVal.jnum 30]⟩,
   ⟨2, "B", some [CoordVal.jnum 32, CoordVal.jnum 28]⟩]

/-- The mixed example of the spec: record 2 has a string longitude. -/
def examplePointsMixed : List Point :=
  [⟨1, "A", some [CoordVal.jnum 30, CoordVal.jnum 30]⟩,
   ⟨2, "B", some [CoordVal.jother, CoordVal.jnum 28]⟩]

/-- A widget handle with a working `destroy`, for concrete scenarios. -/
def okWidget (n : Nat) : Widget := ⟨n, true, false⟩

/-- A view handle with a working `destroy`. -/
def goodView : ViewHandle := ⟨100, true, false⟩

/-- An SDK whose every constructor succeeds. -/
def goodSdk : Sdk :=
  { newMap := Except.ok 0
    newView := Except.ok goodView
    newGraphicsLayer := Except.ok 1
    newHome := Except.ok (okWidget 1)
    newCompass := Except.ok (okWidget 2)
    newLocate := Except.ok (okWidget 3)
    newSearch := Except.ok (okWidget 4)
    newScaleBar := Except.ok (okWidget 5)
    newFullscreen := Except.ok (okWidget 6)
    newBasemapGallery := Except.ok (okWidget 7)
    newCoordinateConversion := Except.ok (okWidget 8)
    newMeasurement := Except.ok (okWidget 9)
    newSketch := Except.ok (okWidget 10) }

/-- The widget set `createAllWidgets` produces from `goodSdk` with a
layer. -/
def goodWidgets : WidgetsState :=
  { home := some (okWidget 1), compass := some (okWidget 2)
    locate := some (okWidget 3), search := some (okWidget 4)
    scaleBar := some (okWidget 5), fullscreen := some (okWidget 6)
    basemapGallery := some (okWidget 7), coordinateConversion := some (okWidget 8)
    measurement := some (okWidget 9), sketch := some (okWidget 10) }

/-- An SDK whose map constructor throws. -/
def badMapSdk : Sdk := { goodSdk with newMap := Except.error "boom" }

/-- The refs after a fully successful initialization. -/
def fullRefs : Refs := ⟨goodWidgets, some goodView⟩

/-- A part-populated widget set: a handle without a `destroy` function and
a handle whose `destroy` throws. -/
def partialWidgets : WidgetsState :=
  { home := some ⟨1, false, false⟩, measurement := some ⟨9, true, true⟩ }

/-- A widget set whose first handle throws on destroy and whose second is
healthy. -/
def failWidgets : WidgetsState :=
  { home := some ⟨1, true, true⟩, compass := some (okWidget 2) }

/-! ## Lemmas about the bounds computation -/

lemma pointStepW_char (st : BoundsAcc × List Point) (p : Point) :
    pointStepW st p =
      match pointLonLat p with
      | some (lo, la) => (updateAcc st.1 lo la, st.2)
      | none => (st.1, st.2 ++ [p]) := by
  unfold pointStepW pointLonLat
  cases p.coordinates with
  | none => rfl
  | some cs =>
    cases cs with
    | nil => rfl
    | cons a t =>
      cases t with
      | nil => rfl
      | cons b t2 => cases a <;> cases b <;> rfl

lemma pointStep_char (acc : BoundsAcc) (p : Point) :
    pointStep acc p =
      match pointLonLat p with
      | some (lo, la) => updateAcc acc lo la
      | none => acc := by
  unfold pointStep pointLonLat
  cases p.coordinates with
  | none => rfl
  | some cs =>
    cases cs with
    | nil => rfl
    | cons a t =>
      cases t with
      | nil => rfl
      | cons b t2 => cases a <;> cases b <;> rfl

lemma validRecord_eq_isSome (p : Point) :
    validRecord p = (pointLonLat p).isSome := by
  unfold validRecord pointLonLat
  cases p.coordinates with
  | none => rfl
  | some cs =>
    cases cs with
    | nil => rfl
    | cons a t =>
      cases t with
      | nil => rfl
      | cons b t2 => cases a <;> cases b <;> rfl

lemma foldl_pointStepW_fst (l : List Point) :
    ∀ (acc : BoundsAcc) (w : List Point),
      (l.foldl pointStepW (acc, w)).1 = l.foldl pointStep acc := by
  induction l with
  | nil => intro acc w; rfl
  | cons p t ih =>
    intro acc w
    simp only [List.foldl_cons, pointStepW_char, pointStep_char]
    cases h : pointLonLat p with
    | none => exact ih acc (w ++ [p])
    | some pr => exact ih (updateAcc acc pr.1 pr.2) w

lemma foldl_pointStepW_snd (l : List Point) :
    ∀ (acc : BoundsAcc) (w : List Point),
      (l.foldl pointStepW (acc, w)).2 =
        w ++ l.filter (fun p => !validRecord p) := by
  induction l with
  | nil => intro acc w; simp
  | cons p t ih =>
    intro acc w
    simp only [List.foldl_cons, pointStepW_char, List.filter_cons]
    cases h : pointLonLat p with
    | none =>
      have hv : validRecord p = false := by
        rw [validRecord_eq_isSome, h]; rfl
      simp only [hv, Bool.not_false, if_pos]
      rw [ih acc (w ++ [p])]
      simp
    | some pr =>
      have hv : validRecord p = true := by
        rw [validRecord_eq_isSome, h]; rfl
      simp only [hv, Bool.not_true, if_neg]
      exact ih _ w

lemma boundsFold_fst (l : List Point) :
    (boundsFold l).1 = l.foldl pointStep initAcc :=
  foldl_pointStepW_fst l initAcc []

lemma boundsFold_snd (l : List Point) :
    (boundsFold l).2 = l.filter (fun p => !validRecord p) := by
  simpa using foldl_pointStepW_snd l initAcc []

lemma foldl_pointStep_filter (l : List Point) :
    ∀ acc : BoundsAcc,
      l.foldl pointStep acc =
        (l.filter (fun p => validRecord p)).foldl pointStep acc := by
  induction l with
  | nil => intro acc; rfl
  | cons p t ih =>
    intro acc
    simp only [List.foldl_cons, List.filter_cons]
    cases hv : validRecord p with
    | false =>
      have h : pointLonLat p = none := by
        rw [validRecord_eq_isSome] at hv
        exact Option.not_isSome_iff_eq_none.mp (by simp [hv])
      rw [pointStep_char, h]
      simpa using ih acc
    | true =>
      simp only [if_pos, List.foldl_cons]
      exact ih (pointStep acc p)

lemma foldl_pointStep_components (l : List Point) :
    ∀ acc : BoundsAcc,
      l.foldl pointStep acc =
        { minLon := eminFold acc.minLon (lonsOf l)
          minLat := eminFold acc.minLat (latsOf l)
          maxLon := emaxFold acc.maxLon (lonsOf l)
          maxLat := emaxFold acc.maxLat (latsOf l) } := by
  induction l with
  | nil => intro acc; simp [lonsOf, latsOf, lonLats, eminFold, emaxFold]
  | cons p t ih =>
    intro acc
    rw [List.foldl_cons, pointStep_char]
    cases h : pointLonLat p with
    | none =>
      simp only [lonsOf, latsOf, lonLats, List.filterMap_cons, h]
      exact ih acc
    | some pr =>
      obtain ⟨lo, la⟩ := pr
      simp only [lonsOf, latsOf, lonLats, List.filterMap_cons, h, List.map_cons]
      rw [ih (updateAcc acc lo la)]
      rfl

lemma eleb_refl (x : ENum) : eleb x x = true := by
  cases x <;> simp [eleb]

lemma eleb_trans {x y z : ENum} (h1 : eleb x y = true) (h2 : eleb y z = true) :
    eleb x z = true := by
  cases x <;> cases y <;> cases z <;> simp_all [eleb]
  exact le_trans h1 h2

lemma emin_le_left (x y : ENum) : eleb (emin x y) x = true := by
  cases x <;> cases y <;> simp [emin, eleb, eleb_refl, min_le_left]

lemma emin_le_right (x y : ENum) : eleb (emin x y) y = true := by
  cases x <;> cases y <;> simp [emin, eleb, eleb_refl, min_le_right]

lemma emin_eq_or (x y : ENum) : emin x y = x ∨ emin x y = y := by
  cases x with
  | fin a =>
    cases y with
    | fin b =>
      rcases min_choice a b with h | h
      · exact Or.inl (by simp [emin, h])
      · exact Or.inr (by simp [emin, h])
    | pinf => exact Or.inl rfl
    | ninf => exact Or.inr rfl
  | pinf =>
    cases y with
    | fin b => exact Or.inr rfl
    | pinf => exact Or.inl rfl
    | ninf => exact Or.inr rfl
  | ninf => exact Or.inl (by cases y <;> rfl)

lemma emin_ne_ninf {x y : ENum} (hx : x ≠ ENum.ninf) (hy : y ≠ ENum.ninf) :
    emin x y ≠ ENum.ninf := by
  cases x <;> cases y <;> simp_all [emin]

lemma emax_le_left (x y : ENum) : eleb x (emax x y) = true := by
  cases x <;> cases y <;> simp [emax, eleb, eleb_refl, le_max_left]

lemma emax_le_right (x y : ENum) : eleb y (emax x y) = true := by
  cases x <;> cases y <;> simp [emax, eleb, eleb_refl, le_max_right]

lemma emax_eq_or (x y : ENum) : emax x y = x ∨ emax x y = y := by
  cases x with
  | fin a =>
    cases y with
    | fin b =>
      rcases max_choice a b with h | h
      · exact Or.inl (by simp [emax, h])
      · exact Or.inr (by simp [emax, h])
    | pinf => exact Or.inr rfl
    | ninf => exact Or.inl rfl
  | pinf =>
    cases y with
    | fin b => exact Or.inl rfl
    | pinf => exact Or.inl rfl
    | ninf => exact Or.inl rfl
  | ninf => exact Or.inr (by cases y <;> rfl)

lemma emax_ne_pinf {x y : ENum} (hx : x ≠ ENum.pinf) (hy : y ≠ ENum.pinf) :
    emax x y ≠ ENum.pinf := by
  cases x <;> cases y <;> simp_all [emax]

lemma eminFold_le_init (qs : List ℚ) :
    ∀ e : ENum, eleb (eminFold e qs) e = true := by
  induction qs with
  | nil => intro e; exact eleb_refl e
  | cons q t ih =>
    intro e
    exact eleb_trans (ih (emin e (ENum.fin q))) (emin_le_left e (ENum.fin q))

lemma eminFold_le_mem (qs : List ℚ) :
    ∀ (e : ENum) (q : ℚ), q ∈ qs → eleb (eminFold e qs) (ENum.fin q) = true := by
  induction qs with
  | nil => intro e q h; simp at h
  | cons a t ih =>
    intro e q h
    rcases List.mem_cons.mp h with h | h
    · subst h
      exact eleb_trans (eminFold_le_init t (emin e (ENum.fin q)))
        (emin_le_right e (ENum.fin q))
    · exact ih (emin e (ENum.fin a)) q h

lemma eminFold_attain (qs : List ℚ) :
    ∀ e : ENum, eminFold e qs = e ∨ ∃ q ∈ qs, eminFold e qs = ENum.fin q := by
  induction qs with
  | nil => intro e; exact Or.inl rfl
  | cons a t ih =>
    intro e
    rcases ih (emin e (ENum.fin a)) with h | ⟨q, hq, h⟩
    · rcases emin_eq_or e (ENum.fin a) with h2 | h2
      · refine Or.inl ?_
        unfold eminFold at h ⊢
        rw [List.foldl_cons, h, h2]
      · refine Or.inr ⟨a, List.mem_cons_self a t, ?_⟩
        unfold eminFold at h ⊢
        rw [List.foldl_cons, h, h2]
    · exact Or.inr ⟨q, List.mem_cons_of_mem a hq, h⟩

lemma eminFold_ne_ninf (qs : List ℚ) :
    ∀ e : ENum, e ≠ ENum.ninf → eminFold e qs ≠ ENum.ninf := by
  induction qs with
  | nil => intro e he; exact he
  | cons a t ih =>
    intro e he
    exact ih (emin e (ENum.fin a)) (emin_ne_ninf he (by simp))

lemma emaxFold_le_init (qs : List ℚ) :
    ∀ e : ENum, eleb e (emaxFold e qs) = true := by
  induction qs with
  | nil => intro e; exact eleb_refl e
  | cons q t ih =>
    intro e
    exact eleb_trans (emax_le_left e (ENum.fin q)) (ih (emax e (ENum.fin q)))

lemma emaxFold_le_mem (qs : List ℚ) :
    ∀ (e : ENum) (q : ℚ), q ∈ qs → eleb (ENum.fin q) (emaxFold e qs) = true := by
  induction qs with
  | nil => intro e q h; simp at h
  | cons a t ih =>
    intro e q h
    rcases List.mem_cons.mp h with h | h
    · subst h
      exact eleb_trans (emax_le_right e (ENum.fin q))
        (emaxFold_le_init t (emax e (ENum.fin q)))
    · exact ih (emax e (ENum.fin a)) q h

lemma emaxFold_attain (qs : List ℚ) :
    ∀ e : ENum, emaxFold e qs = e ∨ ∃ q ∈ qs, emaxFold e qs = ENum.fin q := by
  induction qs with
  | nil => intro e; exact Or.inl rfl
  | cons a t ih =>
    intro e
    rcases ih (emax e (ENum.fin a)) with h | ⟨q, hq, h⟩
    · rcases emax_eq_or e (ENum.fin a) with h2 | h2
      · refine Or.inl ?_
        unfold emaxFold at h ⊢
        rw [List.foldl_cons, h, h2]
      · refine Or.inr ⟨a, List.mem_cons_self a t, ?_⟩
        unfold emaxFold at h ⊢
        rw [List.foldl_cons, h, h2]
    · exact Or.inr ⟨q, List.mem_cons_of_mem a hq, h⟩

lemma emaxFold_ne_pinf (qs : List ℚ) :
    ∀ e : ENum, e ≠ ENum.pinf → emaxFold e qs ≠ ENum.pinf := by
  induction qs with
  | nil => intro e he; exact he
  | cons a t ih =>
    intro e he
    exact ih (emax e (ENum.fin a)) (emax_ne_pinf he (by simp))

lemma eminFold_pinf_fin {qs : List ℚ} (hne : qs ≠ []) :
    ∃ m ∈ qs, eminFold ENum.pinf qs = ENum.fin m ∧ ∀ q ∈ qs, m ≤ q := by
  obtain ⟨q0, t0, rfl⟩ := List.exists_cons_of_ne_nil hne
  rcases eminFold_attain (q0 :: t0) ENum.pinf with h | ⟨m, hm, h⟩
  · have := eminFold_le_mem (q0 :: t0) ENum.pinf q0 (List.mem_cons_self q0 t0)
    rw [h] at this
    simp [eleb] at this
  · refine ⟨m, hm, h, fun q hq => ?_⟩
    have := eminFold_le_mem (q0 :: t0) ENum.pinf q hq
    rw [h] at this
    simpa [eleb] using this

lemma emaxFold_ninf_fin {qs : List ℚ} (hne : qs ≠ []) :
    ∃ m ∈ qs, emaxFold ENum.ninf qs = ENum.fin m ∧ ∀ q ∈ qs, q ≤ m := by
  obtain ⟨q0, t0, rfl⟩ := List.exists_cons_of_ne_nil hne
  rcases emaxFold_attain (q0 :: t0) ENum.ninf with h | ⟨m, hm, h⟩
  · have := emaxFold_le_mem (q0 :: t0) ENum.ninf q0 (List.mem_cons_self q0 t0)
    rw [h] at this
    simp [eleb] at this
  · refine ⟨m, hm, h, fun q hq => ?_⟩
    have := emaxFold_le_mem (q0 :: t0) ENum.ninf q hq
    rw [h] at this
    simpa [eleb] using this

lemma mem_lonsOf {l : List Point} {q : ℚ} :
    q ∈ lonsOf l ↔ ∃ p ∈ l, ∃ la, pointLonLat p = some (q, la) := by
  simp only [lonsOf, lonLats, List.mem_map, List.mem_filterMap]
  constructor
  · rintro ⟨⟨a, b⟩, ⟨p, hp, hpl⟩, rfl⟩
    exact ⟨p, hp, b, hpl⟩
  · rintro ⟨p, hp, la, hpl⟩
    exact ⟨(q, la), ⟨p, hp, hpl⟩, rfl⟩

lemma mem_latsOf {l : List Point} {q : ℚ} :
    q ∈ latsOf l ↔ ∃ p ∈ l, ∃ lo, pointLonLat p = some (lo, q) := by
  simp only [latsOf, lonLats, List.mem_map, List.mem_filterMap]
  constructor
  · rintro ⟨⟨a, b⟩, ⟨p, hp, hpl⟩, rfl⟩
    exact ⟨p, hp, a, hpl⟩
  · rintro ⟨p, hp, lo, hpl⟩
    exact ⟨(lo, q), ⟨p, hp, hpl⟩, rfl⟩

lemma validRecord_some {p : Point} (h : validRecord p = true) :
    ∃ lo la, pointLonLat p = some (lo, la) := by
  rw [validRecord_eq_isSome] at h
  obtain ⟨⟨lo, la⟩, hp⟩ := Option.isSome_iff_exists.mp h
  exact ⟨lo, la, hp⟩

/-! ## Claim theorems: the bounds computation -/

/-- C1.  For every non-empty list of structurally valid points,
`calculateBounds` returns `[[minLon, minLat], [maxLon, maxLat]]` with every
longitude between `minLon` and `maxLon` and every latitude between `minLat`
and `maxLat`, each of the four bounds attained by some point,
`minLon ≤ maxLon`, `minLat ≤ maxLat`, all four values finite; and the
two-point example input yields `[[30, 28], [32, 30]]`. -/
theorem calculateBounds_correct (points : List Point)
    (hne : points ≠ [])
    (hval : ∀ p ∈ points, validRecord p = true) :
    ∃ mLon mLat xLon xLat : ℚ,
      (calculateBounds points).1 =
        Except.ok [[ENum.fin mLon, ENum.fin mLat], [ENum.fin xLon, ENum.fin xLat]] ∧
      (ENum.fin mLon).isFinite = true ∧ (ENum.fin mLat).isFinite = true ∧
      (ENum.fin xLon).isFinite = true ∧ (ENum.fin xLat).isFinite = true ∧
      (∀ p ∈ points, ∀ lo la, pointLonLat p = some (lo, la) →
        mLon ≤ lo ∧ lo ≤ xLon ∧ mLat ≤ la ∧ la ≤ xLat) ∧
      (∃ p ∈ points, ∃ la, pointLonLat p = some (mLon, la)) ∧
      (∃ p ∈ points, ∃ la, pointLonLat p = some (xLon, la)) ∧
      (∃ p ∈ points, ∃ lo, pointLonLat p = some (lo, mLat)) ∧
      (∃ p ∈ points, ∃ lo, pointLonLat p = some (lo, xLat)) ∧
      mLon ≤ xLon ∧ mLat ≤ xLat ∧
      calculateBounds examplePointsAB =
        (Except.ok [[ENum.fin 30, ENum.fin 28], [ENum.fin 32, ENum.fin 30]], []) := by
  obtain ⟨p0, t0, rfl⟩ := List.exists_cons_of_ne_nil hne
  obtain ⟨lo0, la0, h0⟩ := validRecord_some (hval p0 (List.mem_cons_self p0 t0))
  have hlo0 : lo0 ∈ lonsOf (p0 :: t0) :=
    mem_lonsOf.mpr ⟨p0, List.mem_cons_self p0 t0, la0, h0⟩
  have hla0 : la0 ∈ latsOf (p0 :: t0) :=
    mem_latsOf.mpr ⟨p0, List.mem_cons_self p0 t0, lo0, h0⟩
  obtain ⟨mLon, hmLonMem, hminEq, hminLe⟩ :=
    eminFold_pinf_fin (List.ne_nil_of_mem hlo0)
  obtain ⟨xLon, hxLonMem, hmaxEq, hmaxLe⟩ :=
    emaxFold_ninf_fin (List.ne_nil_of_mem hlo0)
  obtain ⟨mLat, hmLatMem, hminLaEq, hminLaLe⟩ :=
    eminFold_pinf_fin (List.ne_nil_of_mem hla0)
  obtain ⟨xLat, hxLatMem, hmaxLaEq, hmaxLaLe⟩ :=
    emaxFold_ninf_fin (List.ne_nil_of_mem hla0)
  have hacc : (boundsFold (p0 :: t0)).1 =
      { minLon := ENum.fin mLon, minLat := ENum.fin mLat
        maxLon := ENum.fin xLon, maxLat := ENum.fin xLat } := by
    rw [boundsFold_fst, foldl_pointStep_components]
    simp only [initAcc]
    rw [hminEq, hmaxEq, hminLaEq, hmaxLaEq]
  have hmain : (calculateBounds (p0 :: t0)).1 =
      Except.ok [[ENum.fin mLon, ENum.fin mLat], [ENum.fin xLon, ENum.fin xLat]] := by
    unfold calculateBounds
    rw [if_neg (by simp), hacc]
    simp [ENum.isFinite]
  refine ⟨mLon, mLat, xLon, xLat, hmain, rfl, rfl, rfl, rfl, ?_, ?_, ?_, ?_, ?_, ?_, ?_, rfl⟩
  · intro p hp lo la hpl
    have hlo : lo ∈ lonsOf (p0 :: t0) := mem_lonsOf.mpr ⟨p, hp, la, hpl⟩
    have hla : la ∈ latsOf (p0 :: t0) := mem_latsOf.mpr ⟨p, hp, lo, hpl⟩
    exact ⟨hminLe lo hlo, hmaxLe lo hlo, hminLaLe la hla, hmaxLaLe la hla⟩
  · exact mem_lonsOf.mp hmLonMem
  · exact mem_lonsOf.mp hxLonMem
  · exact mem_latsOf.mp hmLatMem
  · exact mem_latsOf.mp hxLatMem
  · exact le_trans (hminLe lo0 hlo0) (hmaxLe lo0 hlo0)
  · exact le_trans (hminLaLe la0 hla0) (hmaxLaLe la0 hla0)

/-- Witness for C1: the theorem applied to the concrete two-point example. -/
theorem calculateBounds_correct_witness :
    ∃ mLon mLat xLon xLat : ℚ,
      (calculateBounds examplePointsAB).1 =
        Except.ok [[ENum.fin mLon, ENum.fin mLat], [ENum.fin xLon, ENum.fin xLat]] ∧
      (ENum.fin mLon).isFinite = true ∧ (ENum.fin mLat).isFinite = true ∧
      (ENum.fin xLon).isFinite = true ∧ (ENum.fin xLat).isFinite = true ∧
      (∀ p ∈ examplePointsAB, ∀ lo la, pointLonLat p = some (lo, la) →
        mLon ≤ lo ∧ lo ≤ xLon ∧ mLat ≤ la ∧ la ≤ xLat) ∧
      (∃ p ∈ examplePointsAB, ∃ la, pointLonLat p = some (mLon, la)) ∧
      (∃ p ∈ examplePointsAB, ∃ la, pointLonLat p = some (xLon, la)) ∧
      (∃ p ∈ examplePointsAB, ∃ lo, pointLonLat p = some (lo, mLat)) ∧
      (∃ p ∈ examplePointsAB, ∃ lo, pointLonLat p = some (lo, xLat)) ∧
      mLon ≤ xLon ∧ mLat ≤ xLat ∧
      calculateBounds examplePointsAB =
        (Except.ok [[ENum.fin 30, ENum.fin 28], [ENum.fin 32, ENum.fin 30]], []) :=
  calculateBounds_correct examplePointsAB (by decide) (by decide)

/-- C2.  The bounds fold includes exactly the structurally valid records
(the accumulator over any list equals the accumulator over its valid
records) and warns about exactly the invalid ones; and the mixed example
returns `[[30, 30], [30, 30]]` with the string-coordinate record skipped
and warned about, not a fatal failure. -/
theorem calculateBounds_excludes :
    (∀ points : List Point,
      (boundsFold points).1 =
        (points.filter (fun p => validRecord p)).foldl pointStep initAcc ∧
      (boundsFold points).2 = points.filter (fun p => !validRecord p)) ∧
    calculateBounds examplePointsMixed =
      (Except.ok [[ENum.fin 30, ENum.fin 30], [ENum.fin 30, ENum.fin 30]],
       [⟨2, "B", some [CoordVal.jother, CoordVal.jnum 28]⟩]) := by
  refine ⟨fun points => ⟨?_, boundsFold_snd points⟩, rfl⟩
  rw [boundsFold_fst]
  exact foldl_pointStep_filter points initAcc

/-- C3.  An empty point list fails with `No points data available`; a
non-empty list with no structurally valid record fails with
`Invalid bounds calculated from points` (no degenerate infinite box); and a
bounds failure after a successful initialization surfaces the `Failed`
state with that message. -/
theorem calculateBounds_failure :
    (∀ points : List Point, points = [] →
      (calculateBounds points).1 = Except.error "No points data available") ∧
    (∀ points : List Point, points ≠ [] →
      (∀ p ∈ points, validRecord p = false) →
      (calculateBounds points).1 =
        Except.error "Invalid bounds calculated from points") ∧
    (∀ (sdk : Sdk) (cont : Option Nat) (points : List Point)
        (r : ViewHandle × WidgetsState × Nat) (msg : String),
      initializeMap sdk cont = Except.ok r →
      (calculateBounds points).1 = Except.error msg →
      setupRun sdk cont points = ComponentStatus.failed msg) := by
  refine ⟨?_, ?_, ?_⟩
  · rintro points rfl
    rfl
  · intro points hne hinv
    have hfilter : points.filter (fun p => validRecord p) = [] :=
      List.filter_eq_nil_iff.mpr (by intro a ha; simp [hinv a ha])
    have hacc : (boundsFold points).1 = initAcc := by
      rw [boundsFold_fst, foldl_pointStep_filter, hfilter]
      rfl
    have hlen : ¬points.length = 0 := fun h => hne (List.length_eq_zero.mp h)
    unfold calculateBounds
    rw [if_neg hlen, hacc]
    simp [initAcc, ENum.isFinite]
  · intro sdk cont points r msg h1 h2
    unfold setupRun
    rw [h1, h2]

/-- Witness for C3: the empty list, a fully invalid list, and the surfaced
`Failed` state on a concrete successful initialization. -/
theorem calculateBounds_failure_witness :
    (calculateBounds ([] : List Point)).1 =
      Except.error "No points data available" ∧
    (calculateBounds [⟨2, "B", some [CoordVal.jother, CoordVal.jnum 28]⟩]).1 =
      Except.error "Invalid bounds calculated from points" ∧
    setupRun goodSdk (some 0) [] =
      ComponentStatus.failed "No points data available" :=
  ⟨calculateBounds_failure.1 [] rfl,
   calculateBounds_failure.2.1 _ (by decide) (by decide),
   calculateBounds_failure.2.2 goodSdk (some 0) []
     (goodView, goodWidgets, 1) "No points data available" rfl rfl⟩

/-! ## Lemmas about teardown -/

lemma destroyWidgetList_fst (l : List (Option Widget)) :
    (destroyWidgetList l).1 =
      ((l.filterMap id).filter (fun w => w.hasDestroy)).map Widget.wid := by
  induction l with
  | nil => rfl
  | cons ow t ih =>
    cases ow with
    | none => simpa [destroyWidgetList, destroyOne] using ih
    | some w =>
      cases hd : w.hasDestroy with
      | false => simpa [destroyWidgetList, destroyOne, hd] using ih
      | true =>
        cases hf : w.destroyFails <;>
          simp [destroyWidgetList, destroyOne, Widget.destroyCall, hd, hf, ih]

lemma destroyWidgetList_snd (l : List (Option Widget)) :
    (destroyWidgetList l).2 =
      ((l.filterMap id).filter (fun w => w.hasDestroy && w.destroyFails)).map
        (fun _ => "Failed to destroy widget: widget destroy threw") := by
  induction l with
  | nil => rfl
  | cons ow t ih =>
    cases ow with
    | none => simpa [destroyWidgetList, destroyOne] using ih
    | some w =>
      cases hd : w.hasDestroy with
      | false => simpa [destroyWidgetList, destroyOne, hd] using ih
      | true =>
        cases hf : w.destroyFails <;>
          simp [destroyWidgetList, destroyOne, Widget.destroyCall, hd, hf, ih]

lemma destroyWidgets_fst (ws : WidgetsState) :
    (destroyWidgets ws).1 =
      ((presentWidgets ws).filter (fun w => w.hasDestroy)).map Widget.wid :=
  destroyWidgetList_fst ws.values

lemma destroyWidgets_snd (ws : WidgetsState) :
    (destroyWidgets ws).2 =
      ((presentWidgets ws).filter (fun w => w.hasDestroy && w.destroyFails)).map
        (fun _ => "Failed to destroy widget: widget destroy threw") :=
  destroyWidgetList_snd ws.values

lemma destroyView_fst_some {v : ViewHandle} (h : v.hasDestroy = true) :
    (destroyView (some v)).1 = [v.vid] := by
  cases hf : v.destroyFails <;>
    simp [destroyView, ViewHandle.destroyCall, h, hf]

lemma cleanup_invoked_eq (r : Refs) :
    (cleanup r).2.1 = (destroyWidgets r.widgets).1 ++ (destroyView r.view).1 := by
  cases hv : r.view <;> simp [cleanup, hv, destroyView]

lemma cleanup_refs_eq (r : Refs) :
    (cleanup r).1 = ⟨emptyWidgets, none⟩ := by
  cases hv : r.view <;> simp [cleanup, hv]

/-! ## Claim theorems: teardown and cleanup -/

/-- C4.  For every well-formed refs state (any lifecycle state reaches one:
absent slots for handles never created, present slots with distinct ids for
handles created during the mount), the unmount cleanup invokes exactly one
teardown on every present widget handle and on the view, zero teardowns on
ids never created, clears both refs, and a second cleanup run performs no
further teardown. -/
theorem cleanup_teardown (r : Refs) (h : r.wellFormed) :
    (∀ w ∈ presentWidgets r.widgets, ((cleanup r).2.1.count w.wid) = 1) ∧
    (∀ v, r.view = some v → ((cleanup r).2.1.count v.vid) = 1) ∧
    (∀ i : Nat, i ∉ (presentWidgets r.widgets).map Widget.wid →
      (∀ v, r.view = some v → v.vid ≠ i) →
      ((cleanup r).2.1.count i) = 0) ∧
    (cleanup r).1 = ⟨emptyWidgets, none⟩ ∧
    (cleanup ((cleanup r).1)).2.1 = [] ∧
    (cleanup ((cleanup r).1)).1 = (cleanup r).1 := by
  obtain ⟨hnodup, hdes, hview⟩ := h
  have hfilter : (presentWidgets r.widgets).filter (fun w => w.hasDestroy) =
      presentWidgets r.widgets :=
    List.filter_eq_self.mpr (fun w hw => by simp [hdes w hw])
  have hwfst : (destroyWidgets r.widgets).1 =
      (presentWidgets r.widgets).map Widget.wid := by
    rw [destroyWidgets_fst, hfilter]
  have hinv : (cleanup r).2.1 =
      (presentWidgets r.widgets).map Widget.wid ++ (destroyView r.view).1 := by
    rw [cleanup_invoked_eq, hwfst]
  refine ⟨?_, ?_, ?_, cleanup_refs_eq r, ?_, ?_⟩
  · intro w hw
    rw [hinv, List.count_append]
    have h1 : ((presentWidgets r.widgets).map Widget.wid).count w.wid = 1 :=
      List.count_eq_one_of_mem hnodup (List.mem_map_of_mem Widget.wid hw)
    have h2 : ((destroyView r.view).1).count w.wid = 0 := by
      cases hv : r.view with
      | none => simp [destroyView]
      | some v =>
        obtain ⟨hvd, hvnot⟩ := hview v hv
        rw [destroyView_fst_some hvd]
        have hne : w.wid ≠ v.vid :=
          fun he => hvnot (he ▸ List.mem_map_of_mem Widget.wid hw)
        simp [List.count_eq_zero, hne]
    rw [h1, h2]
  · intro v hv
    obtain ⟨hvd, hvnot⟩ := hview v hv
    rw [hinv, hv, destroyView_fst_some hvd, List.count_append]
    have h1 : ((presentWidgets r.widgets).map Widget.wid).count v.vid = 0 :=
      List.count_eq_zero.mpr hvnot
    rw [h1]
    simp
  · intro i hni hvi
    rw [hinv, List.count_append]
    have h1 : ((presentWidgets r.widgets).map Widget.wid).count i = 0 :=
      List.count_eq_zero.mpr hni
    have h2 : ((destroyView r.view).1).count i = 0 := by
      cases hv : r.view with
      | none => simp [destroyView]
      | some v =>
        rw [destroyView_fst_some (hview v hv).1]
        simp [List.count_eq_zero]
        exact fun he => hvi v hv he.symm
    rw [h1, h2]
  · rw [cleanup_refs_eq]
    rfl
  · rw [cleanup_refs_eq r]
    exact cleanup_refs_eq _

/-- Witness for C4: the refs of a completed initialization; the measurement
widget and the view are torn down once, a never-created id not at all, and
a second run does nothing. -/
theorem cleanup_teardown_witness :
    (cleanup fullRefs).2.1.count 9 = 1 ∧
    (cleanup fullRefs).2.1.count 100 = 1 ∧
    (cleanup fullRefs).2.1.count 55 = 0 ∧
    (cleanup ((cleanup fullRefs).1)).2.1 = [] := by
  have hwf : fullRefs.wellFormed := by
    refine ⟨by decide, by decide, ?_⟩
    intro v hv
    simp [fullRefs] at hv
    subst hv
    exact ⟨rfl, by decide⟩
  exact ⟨(cleanup_teardown fullRefs hwf).1 (okWidget 9) (by decide),
         (cleanup_teardown fullRefs hwf).2.1 goodView rfl,
         (cleanup_teardown fullRefs hwf).2.2.1 55 (by decide)
           (by intro v hv; simp [fullRefs] at hv; subst hv; decide),
         (cleanup_teardown fullRefs hwf).2.2.2.2.1⟩

/-- C6.  The bulk destroy invokes teardown on exactly the present handles
that have a `destroy` function, regardless of which teardowns throw; each
throwing teardown is logged (the error list), not propagated (the function
returns its pair for every input); cleanup appends the view teardown after
all widget teardowns, so one broken widget blocks neither the remaining
widgets nor the view; concretely, a first widget whose destroy throws still
leaves the second destroyed and the failure logged. -/
theorem destroyWidgets_resilient :
    (∀ ws : WidgetsState,
      (destroyWidgets ws).1 =
        ((presentWidgets ws).filter (fun w => w.hasDestroy)).map Widget.wid ∧
      (destroyWidgets ws).2 =
        ((presentWidgets ws).filter (fun w => w.hasDestroy && w.destroyFails)).map
          (fun _ => "Failed to destroy widget: widget destroy threw")) ∧
    (∀ r : Refs,
      (cleanup r).2.1 = (destroyWidgets r.widgets).1 ++ (destroyView r.view).1) ∧
    destroyWidgets failWidgets =
      ([1, 2], ["Failed to destroy widget: widget destroy threw"]) :=
  ⟨fun ws => ⟨destroyWidgets_fst ws, destroyWidgets_snd ws⟩,
   fun r => cleanup_invoked_eq r, rfl⟩

/-- C10.  The teardown helpers are total and safe: a null view and an empty
widget set tear down nothing; a handle lacking a `destroy` function is
skipped; every invoked teardown id comes from a present handle with a
`destroy` function; and a part-populated set destroys only its eligible
handle. -/
theorem teardown_total :
    destroyView none = ([], []) ∧
    destroyWidgets emptyWidgets = ([], []) ∧
    (∀ v : ViewHandle, v.hasDestroy = false → destroyView (some v) = ([], [])) ∧
    (∀ (ws : WidgetsState) (i : Nat), i ∈ (destroyWidgets ws).1 →
      ∃ w ∈ presentWidgets ws, w.hasDestroy = true ∧ w.wid = i) ∧
    destroyWidgets partialWidgets =
      ([9], ["Failed to destroy widget: widget destroy threw"]) := by
  refine ⟨rfl, rfl, ?_, ?_, rfl⟩
  · intro v h
    simp [destroyView, h]
  · intro ws i hi
    rw [destroyWidgets_fst] at hi
    simp only [List.mem_map, List.mem_filter] at hi
    obtain ⟨w, ⟨hw, hd⟩, rfl⟩ := hi
    exact ⟨w, hw, hd, rfl⟩

/-- Witness for C10: a view handle without a `destroy` function is left
alone, and the one invoked id of the part-populated set comes from its
eligible handle. -/
theorem teardown_total_witness :
    destroyView (some ⟨7, false, false⟩) = ([], []) ∧
    ∃ w ∈ presentWidgets partialWidgets, w.hasDestroy = true ∧ w.wid = 9 :=
  ⟨teardown_total.2.2.1 ⟨7, false, false⟩ rfl,
   teardown_total.2.2.2.1 partialWidgets 9 (by decide)⟩

/-! ## Claim theorems: the two toggles -/

lemma toolsEffect_open (v : ViewHandle) (m s : Widget) (u : UISurface) :
    toolsEffect (some v) (some m) (some s) true u =
      insert s.wid (insert m.wid u) := rfl

lemma toolsEffect_closed (v : ViewHandle) (m s : Widget) (u : UISurface) :
    toolsEffect (some v) (some m) (some s) false u =
      (u.erase m.wid).erase s.wid := rfl

lemma basemapEffect_open (v : ViewHandle) (g : Widget) (u : UISurface) :
    basemapEffect (some v) (some g) true u = insert g.wid u := rfl

lemma basemapEffect_closed (v : ViewHandle) (g : Widget) (u : UISurface) :
    basemapEffect (some v) (some g) false u = u.erase g.wid := rfl

/-- C5.  With the view and the relevant widgets constructed: opening
"tools" adds exactly the measurement and sketch ids to the UI surface and
closing removes exactly those two; the basemap toggle does the same for
exactly the gallery id; and for either toggle, toggling twice from a
consistent state returns the surface to its original set. -/
theorem toggle_roundtrip (v : ViewHandle) (m s g : Widget) (u : UISurface) :
    (∀ i : Nat, i ∈ toolsEffect (some v) (some m) (some s) true u ↔
      (i ∈ u ∨ i = m.wid ∨ i = s.wid)) ∧
    (∀ i : Nat, i ∈ toolsEffect (some v) (some m) (some s) false u ↔
      (i ∈ u ∧ i ≠ m.wid ∧ i ≠ s.wid)) ∧
    (m.wid ∉ u → s.wid ∉ u →
      toolsEffect (some v) (some m) (some s) false
        (toolsEffect (some v) (some m) (some s) true u) = u) ∧
    (m.wid ∈ u → s.wid ∈ u →
      toolsEffect (some v) (some m) (some s) true
        (toolsEffect (some v) (some m) (some s) false u) = u) ∧
    (∀ i : Nat, i ∈ basemapEffect (some v) (some g) true u ↔
      (i ∈ u ∨ i = g.wid)) ∧
    (∀ i : Nat, i ∈ basemapEffect (some v) (some g) false u ↔
      (i ∈ u ∧ i ≠ g.wid)) ∧
    (g.wid ∉ u →
      basemapEffect (some v) (some g) false
        (basemapEffect (some v) (some g) true u) = u) ∧
    (g.wid ∈ u →
      basemapEffect (some v) (some g) true
        (basemapEffect (some v) (some g) false u) = u) := by
  refine ⟨?_, ?_, ?_, ?_, ?_, ?_, ?_, ?_⟩
  · intro i
    rw [toolsEffect_open]
    simp only [Finset.mem_insert]
    tauto
  · intro i
    rw [toolsEffect_closed]
    simp only [Finset.mem_erase]
    tauto
  · intro hm hs
    rw [toolsEffect_open, toolsEffect_closed]
    ext i
    simp only [Finset.mem_erase, Finset.mem_insert]
    constructor
    · rintro ⟨hns, hnm, h | h | h⟩
      · exact absurd h hns
      · exact absurd h hnm
      · exact h
    · intro hi
      exact ⟨fun he => hs (he ▸ hi), fun he => hm (he ▸ hi), Or.inr (Or.inr hi)⟩
  · intro hm hs
    rw [toolsEffect_closed, toolsEffect_open]
    ext i
    simp only [Finset.mem_insert, Finset.mem_erase]
    constructor
    · rintro (h | h | ⟨hns, hnm, h⟩)
      · exact h ▸ hs
      · exact h ▸ hm
      · exact h
    · intro hi
      by_cases hes : i = s.wid
      · exact Or.inl hes
      · by_cases hem : i = m.wid
        · exact Or.inr (Or.inl hem)
        · exact Or.inr (Or.inr ⟨hes, hem, hi⟩)
  · intro i
    rw [basemapEffect_open]
    simp only [Finset.mem_insert]
    tauto
  · intro i
    rw [basemapEffect_closed]
    simp only [Finset.mem_erase]
    tauto
  · intro hg
    rw [basemapEffect_open, basemapEffect_closed]
    ext i
    simp only [Finset.mem_erase, Finset.mem_insert]
    constructor
    · rintro ⟨hng, h | h⟩
      · exact absurd h hng
      · exact h
    · intro hi
      exact ⟨fun he => hg (he ▸ hi), Or.inr hi⟩
  · intro hg
    rw [basemapEffect_closed, basemapEffect_open]
    ext i
    simp only [Finset.mem_insert, Finset.mem_erase]
    constructor
    · rintro (h | ⟨hng, h⟩)
      · exact h ▸ hg
      · exact h
    · intro hi
      by_cases heg : i = g.wid
      · exact Or.inl heg
      · exact Or.inr ⟨heg, hi⟩

/-- Witness for C5: concrete round trips on the empty surface and on the
surface already holding the toggled widgets. -/
theorem toggle_roundtrip_witness :
    toolsEffect (some goodView) (some (okWidget 9)) (some (okWidget 10)) false
      (toolsEffect (some goodView) (some (okWidget 9)) (some (okWidget 10)) true ∅) = ∅ ∧
    toolsEffect (some goodView) (some (okWidget 9)) (some (okWidget 10)) true
      (toolsEffect (some goodView) (some (okWidget 9)) (some (okWidget 10)) false
        ({9, 10} : Finset Nat)) = {9, 10} ∧
    basemapEffect (some goodView) (some (okWidget 7)) false
      (basemapEffect (some goodView) (some (okWidget 7)) true ∅) = ∅ ∧
    basemapEffect (some goodView) (some (okWidget 7)) true
      (basemapEffect (some goodView) (some (okWidget 7)) false
        ({7} : Finset Nat)) = {7} :=
  ⟨(toggle_roundtrip goodView (okWidget 9) (okWidget 10) (okWidget 7) ∅).2.2.1
     (by decide) (by decide),
   (toggle_roundtrip goodView (okWidget 9) (okWidget 10) (okWidget 7) {9, 10}).2.2.2.1
     (by decide) (by decide),
   (toggle_roundtrip goodView (okWidget 9) (okWidget 10) (okWidget 7) ∅).2.2.2.2.2.2.1
     (by decide),
   (toggle_roundtrip goodView (okWidget 9) (okWidget 10) (okWidget 7) {7}).2.2.2.2.2.2.2
     (by decide)⟩

/-- C7.  A toggle run before the view or its widgets exist leaves the UI
surface unchanged (the widget set is not even an input of the effect, so it
is untouched by construction). -/
theorem toggle_noop :
    (∀ (mOpt sOpt : Option Widget) (b : Bool) (u : UISurface),
      toolsEffect none mOpt sOpt b u = u) ∧
    (∀ (vOpt : Option ViewHandle) (sOpt : Option Widget) (b : Bool) (u : UISurface),
      toolsEffect vOpt none sOpt b u = u) ∧
    (∀ (vOpt : Option ViewHandle) (mOpt : Option Widget) (b : Bool) (u : UISurface),
      toolsEffect vOpt mOpt none b u = u) ∧
    (∀ (gOpt : Option Widget) (b : Bool) (u : UISurface),
      basemapEffect none gOpt b u = u) ∧
    (∀ (vOpt : Option ViewHandle) (b : Bool) (u : UISurface),
      basemapEffect vOpt none b u = u) := by
  refine ⟨?_, ?_, ?_, ?_, ?_⟩
  · intro mOpt sOpt b u
    cases mOpt <;> cases sOpt <;> rfl
  · intro vOpt sOpt b u
    cases vOpt <;> cases sOpt <;> rfl
  · intro vOpt mOpt b u
    cases vOpt <;> cases mOpt <;> rfl
  · intro gOpt b u
    cases gOpt <;> rfl
  · intro vOpt b u
    cases vOpt <;> rfl

/-! ## Claim theorems: the factory under a fallible SDK -/

lemma wrap_ok {α : Type} {msg : String} {x : Except String α} {a : α}
    (h : wrap msg x = Except.ok a) : x = Except.ok a := by
  cases x with
  | error e => simp [wrap] at h
  | ok b => simpa [wrap] using h

lemma exceptBind_ok {α β : Type} {x : Except String α} {f : α → Except String β}
    {b : β} (h : (x >>= f) = Except.ok b) :
    ∃ a, x = Except.ok a ∧ f a = Except.ok b := by
  cases x with
  | error e => simp [Bind.bind, Except.bind] at h
  | ok a => exact ⟨a, rfl, by simpa [Bind.bind, Except.bind] using h⟩

/-- C8.  Every factory create operation wraps an SDK construction failure
in an error naming the failed construction; the bulk create wraps the
single-widget failure again; and an initialization error surfaces as the
`Failed` component state, never swallowed. -/
theorem factory_failures :
    (∀ (sdk : Sdk) (b : String) (e : String), sdk.newMap = Except.error e →
      createMap sdk b = Except.error ("Failed to create map: " ++ e)) ∧
    (∀ (sdk : Sdk) (c m : Nat) (e : String), sdk.newView = Except.error e →
      createMapView sdk c m = Except.error ("Failed to create map view: " ++ e)) ∧
    (∀ (sdk : Sdk) (i : String) (e : String),
      sdk.newGraphicsLayer = Except.error e →
      createGraphicsLayer sdk i =
        Except.error ("Failed to create graphics layer: " ++ e)) ∧
    (∀ (sdk : Sdk) (v : ViewHandle) (e : String), sdk.newHome = Except.error e →
      createHomeWidget sdk v =
        Except.error ("Failed to create home widget: " ++ e)) ∧
    (∀ (sdk : Sdk) (v : ViewHandle) (e : String), sdk.newCompass = Except.error e →
      createCompassWidget sdk v =
        Except.error ("Failed to create compass widget: " ++ e)) ∧
    (∀ (sdk : Sdk) (v : ViewHandle) (e : String), sdk.newLocate = Except.error e →
      createLocateWidget sdk v =
        Except.error ("Failed to create locate widget: " ++ e)) ∧
    (∀ (sdk : Sdk) (v : ViewHandle) (e : String), sdk.newSearch = Except.error e →
      createSearchWidget sdk v =
        Except.error ("Failed to create search widget: " ++ e)) ∧
    (∀ (sdk : Sdk) (v : ViewHandle) (e : String), sdk.newScaleBar = Except.error e →
      createScaleBarWidget sdk v =
        Except.error ("Failed to create scale bar widget: " ++ e)) ∧
    (∀ (sdk : Sdk) (v : ViewHandle) (e : String), sdk.newFullscreen = Except.error e →
      createFullscreenWidget sdk v =
        Except.error ("Failed to create fullscreen widget: " ++ e)) ∧
    (∀ (sdk : Sdk) (v : ViewHandle) (e : String),
      sdk.newBasemapGallery = Except.error e →
      createBasemapGallery sdk v =
        Except.error ("Failed to create basemap gallery: " ++ e)) ∧
    (∀ (sdk : Sdk) (v : ViewHandle) (e : String),
      sdk.newCoordinateConversion = Except.error e →
      createCoordinateConversionWidget sdk v =
        Except.error ("Failed to create coordinate conversion widget: " ++ e)) ∧
    (∀ (sdk : Sdk) (v : ViewHandle) (e : String),
      sdk.newMeasurement = Except.error e →
      createMeasurementWidget sdk v =
        Except.error ("Failed to create measurement widget: " ++ e)) ∧
    (∀ (sdk : Sdk) (v : ViewHandle) (l : Nat) (e : String),
      sdk.newSketch = Except.error e →
      createSketchWidget sdk v l =
        Except.error ("Failed to create sketch widget: " ++ e)) ∧
    (∀ (sdk : Sdk) (v : ViewHandle) (gl : Option Nat) (e : String),
      sdk.newHome = Except.error e →
      createAllWidgets sdk v gl =
        Except.error
          ("Failed to create widgets: " ++ ("Failed to create home widget: " ++ e))) ∧
    (∀ (sdk : Sdk) (cont : Option Nat) (points : List Point) (e : String),
      initializeMap sdk cont = Except.error e →
      setupRun sdk cont points = ComponentStatus.failed e) ∧
    (∀ (sdk : Sdk) (c : Nat) (points : List Point) (e : String),
      sdk.newMap = Except.error e →
      setupRun sdk (some c) points =
        ComponentStatus.failed
          ("Map initialization failed: " ++ ("Failed to create map: " ++ e))) := by
  refine ⟨?_, ?_, ?_, ?_, ?_, ?_, ?_, ?_, ?_, ?_, ?_, ?_, ?_, ?_, ?_, ?_⟩
  · intro sdk b e h
    unfold createMap
    rw [h]
    all_goals rfl
  · intro sdk c m e h
    unfold createMapView
    rw [h]
    all_goals rfl
  · intro sdk i e h
    unfold createGraphicsLayer
    rw [h]
    all_goals rfl
  · intro sdk v e h
    unfold createHomeWidget
    rw [h]
    all_goals rfl
  · intro sdk v e h
    unfold createCompassWidget
    rw [h]
    all_goals rfl
  · intro sdk v e h
    unfold createLocateWidget
    rw [h]
    all_goals rfl
  · intro sdk v e h
    unfold createSearchWidget
    rw [h]
    all_goals rfl
  · intro sdk v e h
    unfold createScaleBarWidget
    rw [h]
    all_goals rfl
  · intro sdk v e h
    unfold createFullscreenWidget
    rw [h]
    all_goals rfl
  · intro sdk v e h
    unfold createBasemapGallery
    rw [h]
    all_goals rfl
  · intro sdk v e h
    unfold createCoordinateConversionWidget
    rw [h]
    all_goals rfl
  · intro sdk v e h
    unfold createMeasurementWidget
    rw [h]
    all_goals rfl
  · intro sdk v l e h
    unfold createSketchWidget
    rw [h]
    all_goals rfl
  · intro sdk v gl e h
    unfold createAllWidgets createHomeWidget
    rw [h]
    all_goals rfl
  · intro sdk cont points e h
    unfold setupRun
    rw [h]
  · intro sdk c points e h
    unfold setupRun initializeMap createMap
    rw [h]
    all_goals rfl

/-- Witness for C8: an SDK whose map constructor throws produces the
descriptive factory error and the surfaced `Failed` state. -/
theorem factory_failures_witness :
    createMap badMapSdk "streets-vector" =
      Except.error ("Failed to create map: " ++ "boom") ∧
    setupRun badMapSdk (some 0) [] =
      ComponentStatus.failed
        ("Map initialization failed: " ++ ("Failed to create map: " ++ "boom")) :=
  ⟨factory_failures.1 badMapSdk "streets-vector" "boom" rfl,
   factory_failures.2.2.2.2.2.2.2.2.2.2.2.2.2.2.2 badMapSdk 0 [] "boom" rfl⟩

/-- C9.  Whenever the bulk create returns a widget set, the nine view-only
slots are all populated, and the sketch slot is populated exactly when a
graphics layer was supplied — in both factory versions. -/
theorem createAllWidgets_slots :
    (∀ (sdk : Sdk) (v : ViewHandle) (gl : Option Nat) (ws : WidgetsState),
      createAllWidgets sdk v gl = Except.ok ws →
      (ws.home.isSome = true ∧ ws.compass.isSome = true ∧
       ws.locate.isSome = true ∧ ws.search.isSome = true ∧
       ws.scaleBar.isSome = true ∧ ws.fullscreen.isSome = true ∧
       ws.basemapGallery.isSome = true ∧ ws.coordinateConversion.isSome = true ∧
       ws.measurement.isSome = true) ∧
      (ws.sketch.isSome = true ↔ gl.isSome = true)) ∧
    (∀ (sdk : Sdk) (v : ViewHandle) (gl : Option Nat) (ws : WidgetsState)
        (ids : List Nat),
      setupAllWidgets sdk v gl = Except.ok (ws, ids) →
      (ws.home.isSome = true ∧ ws.compass.isSome = true ∧
       ws.locate.isSome = true ∧ ws.search.isSome = true ∧
       ws.scaleBar.isSome = true ∧ ws.fullscreen.isSome = true ∧
       ws.basemapGallery.isSome = true ∧ ws.coordinateConversion.isSome = true ∧
       ws.measurement.isSome = true) ∧
      (ws.sketch.isSome = true ↔ gl.isSome = true)) := by
  constructor
  · intro sdk v gl ws h
    unfold createAllWidgets at h
    replace h := wrap_ok h
    obtain ⟨home, hh, h⟩ := exceptBind_ok h
    obtain ⟨compass, hc, h⟩ := exceptBind_ok h
    obtain ⟨locate, hl, h⟩ := exceptBind_ok h
    obtain ⟨search, hs, h⟩ := exceptBind_ok h
    obtain ⟨scaleBar, hsb, h⟩ := exceptBind_ok h
    obtain ⟨fullscreen, hf, h⟩ := exceptBind_ok h
    obtain ⟨basemapGallery, hbg, h⟩ := exceptBind_ok h
    obtain ⟨coordinateConversion, hcc, h⟩ := exceptBind_ok h
    obtain ⟨measurement, hm, h⟩ := exceptBind_ok h
    cases gl with
    | none =>
      simp only [pure, Except.pure, Except.ok.injEq] at h
      subst h
      exact ⟨⟨rfl, rfl, rfl, rfl, rfl, rfl, rfl, rfl, rfl⟩, by simp⟩
    | some l =>
      obtain ⟨sk, hsk, h⟩ := exceptBind_ok h
      simp only [pure, Except.pure, Except.ok.injEq] at h
      subst h
      exact ⟨⟨rfl, rfl, rfl, rfl, rfl, rfl, rfl, rfl, rfl⟩, by simp⟩
  · intro sdk v gl ws ids h
    unfold setupAllWidgets at h
    obtain ⟨home, hh, h⟩ := exceptBind_ok h
    obtain ⟨compass, hc, h⟩ := exceptBind_ok h
    obtain ⟨locate, hl, h⟩ := exceptBind_ok h
    obtain ⟨search, hs, h⟩ := exceptBind_ok h
    obtain ⟨scaleBar, hsb, h⟩ := exceptBind_ok h
    obtain ⟨fullscreen, hf, h⟩ := exceptBind_ok h
    obtain ⟨basemapGallery, hbg, h⟩ := exceptBind_ok h
    obtain ⟨coordinateConversion, hcc, h⟩ := exceptBind_ok h
    obtain ⟨measurement, hm, h⟩ := exceptBind_ok h
    cases gl with
    | none =>
      simp only [pure, Except.pure, Except.ok.injEq, Prod.mk.injEq] at h
      obtain ⟨hws, hids⟩ := h
      subst hws
      exact ⟨⟨rfl, rfl, rfl, rfl, rfl, rfl, rfl, rfl, rfl⟩, by simp⟩
    | some l =>
      obtain ⟨sk, hsk2, h⟩ := exceptBind_ok h
      simp only [pure, Except.pure, Except.ok.injEq, Prod.mk.injEq] at h
      obtain ⟨hws, hids⟩ := h
      subst hws
      exact ⟨⟨rfl, rfl, rfl, rfl, rfl, rfl, rfl, rfl, rfl⟩, by simp⟩

/-- Witness for C9: the all-succeeding SDK with a layer populates every
slot including sketch. -/
theorem createAllWidgets_slots_witness :
    (goodWidgets.home.isSome = true ∧ goodWidgets.compass.isSome = true ∧
     goodWidgets.locate.isSome = true ∧ goodWidgets.search.isSome = true ∧
     goodWidgets.scaleBar.isSome = true ∧ goodWidgets.fullscreen.isSome = true ∧
     goodWidgets.basemapGallery.isSome = true ∧
     goodWidgets.coordinateConversion.isSome = true ∧
     goodWidgets.measurement.isSome = true) ∧
    (goodWidgets.sketch.isSome = true ↔ (some 1 : Option Nat).isSome = true) :=
  createAllWidgets_slots.1 goodSdk goodView (some 1) goodWidgets rfl

end ArcgisMap
